import Mathlib

/-!
# Verification of the AlfTooltip trigger/overlay controller

Shallow embedding of `src/aikau/src/main/resources/alfresco/misc/AlfTooltip.js`.

The widget keeps two timeout handles (`_showTooltipTimeout`, `_hideTooltipTimeout`),
a lazily-created tooltip dialog (`_tooltip`), and four pointer handlers
(`onMouseover`, `onMouseout`, `onTooltipMouseover`, `onTooltipMouseout`) plus
`showTooltip` / `hideTooltip` and the `postCreate` setup.

The JavaScript timer primitives are modelled faithfully:
`setTimeout` returns a fresh positive id and registers a pending callback with a
deadline; `clearTimeout i` removes the pending callback with id `i` (a no-op for
an id that is not pending, in particular for the initial value `0`).  Crucially,
overwriting a stored timeout handle does *not* cancel the previously scheduled
callback — that callback stays live and will still fire.

External collaborators (`processWidgets` as the content builder, `TooltipDialog`
construction, `dijit/popup.open` / `popup.close` as the overlay host) are modelled
by counters recording how often each is invoked, plus boolean oracles saying
whether each call succeeds (for the error-propagation claim).
-/

namespace AlfTooltip

/-- Which callback a pending timeout will run: `showTooltip` or `hideTooltip`. -/
inductive Action where
  | show
  | hide
  deriving DecidableEq, Repr

/-- A pending `setTimeout` callback: its id, absolute deadline and callback. -/
structure Timer where
  id : Nat
  deadline : Nat
  action : Action
  deriving DecidableEq, Repr

/-- The mutable state of one AlfTooltip widget instance, together with the
pending-timer pool of the event loop and invocation counters for the external
collaborators. -/
structure St where
  /-- `this._tooltip`: whether the TooltipDialog has been created (non-null). -/
  _tooltip : Bool
  /-- `this._showTooltipTimeout`: the stored id of the most recent show timeout. -/
  _showTooltipTimeout : Nat
  /-- `this._hideTooltipTimeout`: the stored id of the most recent hide timeout. -/
  _hideTooltipTimeout : Nat
  /-- live `setTimeout` callbacks not yet fired and not cleared -/
  pending : List Timer
  /-- next fresh timeout id (JavaScript ids are positive; we start at 1) -/
  nextId : Nat
  /-- number of `processWidgets(this.widgetsForTooltip, …)` calls -/
  buildCount : Nat
  /-- number of `showTooltip` invocations -/
  showCount : Nat
  /-- number of `popup.open` calls -/
  openCount : Nat
  /-- number of `popup.close` calls -/
  closeCount : Nat
  deriving DecidableEq, Repr

/-- The widget state right after construction (all JS fields at their defaults). -/
def Init : St :=
  { _tooltip := false, _showTooltipTimeout := 0, _hideTooltipTimeout := 0,
    pending := [], nextId := 1,
    buildCount := 0, showCount := 0, openCount := 0, closeCount := 0 }

/-- Configuration fields of the widget, with the source defaults. -/
structure Config where
  /-- widget model rendered inside the tooltip (`null` = `none`) -/
  widgetsForTooltip : Option (List String)
  /-- widget model rendered immediately in the trigger region -/
  widgets : Option (List String)
  /-- style applied to the tooltip dialog -/
  tooltipStyle : Option String := none
  /-- the `dojo/on` event to listen for -/
  triggeringEvent : String := "mouseover"
  /-- delay (ms) before showing on mouseover -/
  mouseoverShowDelay : Nat := 250
  /-- delay (ms) before hiding on mouseout -/
  mouseoutHideDelay : Nat := 250
  deriving DecidableEq, Repr

/-- `clearTimeout(i)`: removes the pending callback with id `i`, if any. -/
def clearTimeout (i : Nat) (s : St) : St :=
  { s with pending := s.pending.filter (fun tm => tm.id != i) }

/-- `setTimeout(action, delay)` at absolute time `now`: registers a fresh
pending callback and returns its id. -/
def setTimeout (a : Action) (delay : Nat) (now : Nat) (s : St) : Nat × St :=
  (s.nextId,
   { s with pending := s.pending ++ [⟨s.nextId, now + delay, a⟩],
            nextId := s.nextId + 1 })

/-- Success oracles for the external collaborators used by `showTooltip`:
`processWidgets` (content builder), `new TooltipDialog` (overlay creation) and
`popup.open` (overlay host). -/
structure Collab where
  buildOk : Bool
  createOk : Bool
  openOk : Bool
  deriving DecidableEq, Repr

/-- `showTooltip` with explicit collaborator success oracles.  Mirrors the
source: if `_tooltip` is unset, call `processWidgets(widgetsForTooltip, …)`,
construct the `TooltipDialog` and store it in `_tooltip`; then in every case
call `popup.open`.  An exception from a collaborator aborts the rest of the
body but keeps all mutations already performed (JavaScript has no rollback);
the thrown error is returned as `some msg`. -/
def showTooltipWith (c : Collab) (s0 : St) : Option String × St :=
  let s := { s0 with showCount := s0.showCount + 1 }
  if s._tooltip then
    if c.openOk then (none, { s with openCount := s.openCount + 1 })
    else (some "OverlayHostFailure.open", s)
  else if !c.buildOk then (some "ContentBuildFailure", s)
  else
    let s := { s with buildCount := s.buildCount + 1 }
    if !c.createOk then (some "OverlayHostFailure.create", s)
    else
      let s := { s with _tooltip := true }
      if c.openOk then (none, { s with openCount := s.openCount + 1 })
      else (some "OverlayHostFailure.open", s)

/-- `showTooltip` in the normal run where every collaborator succeeds. -/
def showTooltip (s : St) : St :=
  (showTooltipWith ⟨true, true, true⟩ s).2

/-- `hideTooltip`: unconditionally calls `popup.close(this._tooltip)` —
the source has no guard on `_tooltip` being present. -/
def hideTooltip (s : St) : St :=
  { s with closeCount := s.closeCount + 1 }

/-- `onMouseover`: clears the stored *hide* timeout, then schedules a new show
timeout and overwrites `_showTooltipTimeout` with its id.  Note that the
previously stored show timeout, if still pending, is *not* cleared. -/
def onMouseover (cfg : Config) (now : Nat) (s : St) : St :=
  let s1 := clearTimeout s._hideTooltipTimeout s
  let p := setTimeout .show cfg.mouseoverShowDelay now s1
  { p.2 with _showTooltipTimeout := p.1 }

/-- `onMouseout`: clears the stored *show* timeout, then schedules a new hide
timeout and overwrites `_hideTooltipTimeout` with its id. -/
def onMouseout (cfg : Config) (now : Nat) (s : St) : St :=
  let s1 := clearTimeout s._showTooltipTimeout s
  let p := setTimeout .hide cfg.mouseoutHideDelay now s1
  { p.2 with _hideTooltipTimeout := p.1 }

/-- `onTooltipMouseover`: clears the stored hide timeout, schedules nothing. -/
def onTooltipMouseover (s : St) : St :=
  clearTimeout s._hideTooltipTimeout s

/-- `onTooltipMouseout`: schedules a hide timeout (clearing nothing) and
overwrites `_hideTooltipTimeout` with its id. -/
def onTooltipMouseout (cfg : Config) (now : Nat) (s : St) : St :=
  let p := setTimeout .hide cfg.mouseoutHideDelay now s
  { p.2 with _hideTooltipTimeout := p.1 }

/-- The handlers `postCreate` can register on the trigger element's DOM node. -/
inductive Handler where
  | hMouseover
  | hMouseout
  | hShowTooltip
  deriving DecidableEq, Repr

/-- What `postCreate` does, as a pure value: which listeners it registers on
the trigger node, whether it logged the missing-`widgetsForTooltip` warning,
and whether it processed the primary `widgets` model. -/
structure SetupResult where
  listeners : List (String × Handler)
  warned : Bool
  processedWidgets : Bool
  deriving DecidableEq, Repr

/-- `postCreate`: if `widgetsForTooltip` is configured, register either the two
hover listeners (`triggeringEvent === "mouseover"`) or a single listener on the
configured event that directly invokes `showTooltip`; otherwise only log a
warning.  In every case, process `widgets` if configured. -/
def postCreate (cfg : Config) : SetupResult :=
  if cfg.widgetsForTooltip.isSome then
    { listeners :=
        if cfg.triggeringEvent = "mouseover" then
          [("mouseover", .hMouseover), ("mouseout", .hMouseout)]
        else
          [(cfg.triggeringEvent, .hShowTooltip)],
      warned := false,
      processedWidgets := cfg.widgets.isSome }
  else
    { listeners := [], warned := true, processedWidgets := cfg.widgets.isSome }

/-- Run a registered handler at time `now`. -/
def runHandler (cfg : Config) (h : Handler) (now : Nat) (s : St) : St :=
  match h with
  | .hMouseover => onMouseover cfg now s
  | .hMouseout => onMouseout cfg now s
  | .hShowTooltip => showTooltip s

/-- Run a fired timeout callback. -/
def runAction (a : Action) (s : St) : St :=
  match a with
  | .show => showTooltip s
  | .hide => hideTooltip s

/-- Insert a timer into a list sorted by (deadline, id). -/
def insertTimer (tm : Timer) : List Timer → List Timer
  | [] => [tm]
  | x :: xs =>
      if tm.deadline < x.deadline ∨ (tm.deadline = x.deadline ∧ tm.id ≤ x.id) then
        tm :: x :: xs
      else
        x :: insertTimer tm xs

/-- Sort timers by (deadline, id): the order in which the event loop runs
callbacks that are due (earlier deadline first, ties by scheduling order,
since ids increase with scheduling order). -/
def sortTimers : List Timer → List Timer
  | [] => []
  | x :: xs => insertTimer x (sortTimers xs)

/-- Advance the clock to time `t`: every pending callback whose deadline has
been reached is removed from the pool and run, in (deadline, id) order.  The
fired callbacks (`showTooltip` / `hideTooltip`) never schedule or clear
timeouts themselves, so removing the whole batch first and then running the
callbacks is exact. -/
def fireDue (t : Nat) (s : St) : St :=
  let due := sortTimers (s.pending.filter (fun tm => decide (tm.deadline ≤ t)))
  let s' := { s with pending := s.pending.filter (fun tm => !decide (tm.deadline ≤ t)) }
  due.foldl (fun s tm => runAction tm.action s) s'

/-- An external stimulus: a DOM event on the trigger node (dispatched through
the listeners that `postCreate` registered), or the pointer entering/leaving
the tooltip dialog itself (wired to `onTooltipMouseover`/`onTooltipMouseout`
at dialog construction, hence inert while `_tooltip` is absent). -/
inductive Ev where
  | dom (name : String)
  | overlayEnter
  | overlayLeave
  deriving DecidableEq, Repr

/-- Deliver one stimulus at time `now`. -/
def happen (cfg : Config) (L : List (String × Handler)) (now : Nat) (e : Ev) (s : St) : St :=
  match e with
  | .dom name =>
      (L.filter (fun p => p.1 == name)).foldl (fun s p => runHandler cfg p.2 now s) s
  | .overlayEnter => if s._tooltip then onTooltipMouseover s else s
  | .overlayLeave => if s._tooltip then onTooltipMouseout cfg now s else s

/-- Process a chronologically ordered list of stimuli: before each stimulus,
fire every timeout whose deadline has been reached. -/
def runEvents (cfg : Config) (L : List (String × Handler)) : List (Nat × Ev) → St → St
  | [], s => s
  | (t, e) :: rest, s => runEvents cfg L rest (happen cfg L t e (fireDue t s))

/-- The observable state at time `τ`: process the stimuli that occur no later
than `τ`, then fire every timeout due by `τ`. -/
def runUntil (cfg : Config) (L : List (String × Handler)) (tr : List (Nat × Ev)) (τ : Nat) (s : St) : St :=
  fireDue τ (runEvents cfg L (tr.filter (fun p => decide (p.1 ≤ τ))) s)

/-- Hover-trigger events used by the debounce claims. -/
inductive EvK where
  | enter
  | leave
  deriving DecidableEq, Repr

/-- The DOM event name a hover event arrives as. -/
def evName : EvK → String
  | .enter => "mouseover"
  | .leave => "mouseout"

/-- View a hover trace as a stimulus trace. -/
def toEvs (tr : List (Nat × EvK)) : List (Nat × Ev) :=
  tr.map (fun p => (p.1, Ev.dom (evName p.2)))

/-- A hover configuration with the default 250ms delays. -/
def cfgHover : Config :=
  { widgetsForTooltip := some ["alfresco/html/Label"],
    widgets := some ["alfresco/logo/Logo"] }

/-- A click-trigger configuration. -/
def cfgClick : Config :=
  { widgetsForTooltip := some ["alfresco/html/Label"],
    widgets := some ["alfresco/logo/Logo"],
    triggeringEvent := "click" }

/-! ## Basic lemmas about the timer pool -/

theorem fireDue_no_due (t : Nat) (s : St) (h : ∀ tm ∈ s.pending, ¬ tm.deadline ≤ t) :
    fireDue t s = s := by
  have h1 : s.pending.filter (fun tm => decide (tm.deadline ≤ t)) = [] := by
    rw [List.filter_eq_nil_iff]
    intro tm hm
    simpa using h tm hm
  have h2 : s.pending.filter (fun tm => !decide (tm.deadline ≤ t)) = s.pending := by
    rw [List.filter_eq_self]
    intro tm hm
    simpa using h tm hm
  simp [fireDue, h1, h2, sortTimers]

theorem mem_of_mem_insertTimer {tm x : Timer} {l : List Timer} :
    x ∈ insertTimer tm l → x = tm ∨ x ∈ l := by
  induction l with
  | nil =>
    intro h
    simpa [insertTimer] using h
  | cons y ys ih =>
    intro h
    simp only [insertTimer] at h
    split at h
    · rcases List.mem_cons.mp h with h | h
      · exact Or.inl h
      · exact Or.inr h
    · rcases List.mem_cons.mp h with h | h
      · exact Or.inr (List.mem_cons.mpr (Or.inl h))
      · rcases ih h with h | h
        · exact Or.inl h
        · exact Or.inr (List.mem_cons.mpr (Or.inr h))

theorem mem_of_mem_sortTimers {x : Timer} {l : List Timer} :
    x ∈ sortTimers l → x ∈ l := by
  induction l with
  | nil =>
    intro h
    simp [sortTimers] at h
  | cons y ys ih =>
    intro h
    simp only [sortTimers] at h
    rcases mem_of_mem_insertTimer h with h | h
    · simp [h]
    · exact List.mem_cons_of_mem _ (ih h)

theorem foldl_hides_showCount (l : List Timer) (s : St)
    (h : ∀ tm ∈ l, tm.action = Action.hide) :
    (l.foldl (fun s tm => runAction tm.action s) s).showCount = s.showCount := by
  induction l generalizing s with
  | nil => rfl
  | cons x xs ih =>
    have hx : x.action = Action.hide := h x (by simp)
    rw [List.foldl_cons, hx]
    exact ih (hideTooltip s) (fun tm hm => h tm (by simp [hm]))

theorem fireDue_showCount_of_hides (t : Nat) (s : St)
    (h : ∀ tm ∈ s.pending, tm.action = Action.hide) :
    (fireDue t s).showCount = s.showCount := by
  unfold fireDue
  exact foldl_hides_showCount _ _ (fun tm hm =>
    h tm (List.mem_filter.mp (mem_of_mem_sortTimers hm)).1)

/-! ## C1: does scheduling a timer cancel the outstanding timer of the same kind? -/

/-- Claim C1 is false on the code: after two consecutive `onMouseover` calls (at
t=0 and t=100, show delay 250) two show timers are simultaneously live — the
first one (id 1, deadline 250) was never cleared, because `onMouseover` clears
only the stored *hide* timeout before scheduling a new show timeout. -/
theorem C1_counterexample :
    (⟨1, 250, Action.show⟩ : Timer) ∈
        (onMouseover cfgHover 100 (onMouseover cfgHover 0 Init)).pending
    ∧ ((onMouseover cfgHover 100 (onMouseover cfgHover 0 Init)).pending.filter
        (fun tm => tm.action == Action.show)).length = 2 := by
  decide

/-- Claim C1 (amended): each scheduling handler cancels only the stored timer of
the *opposite* kind (or nothing at all, for `onTooltipMouseout`), then appends a
fresh timer of its own kind and stores its id.  The previously outstanding timer
of the same kind is never cancelled, so several live timers of one kind can
coexist, and only the most recently scheduled one of each kind can still be
cancelled later (only its id is retained). -/
theorem C1_scheduling_clears_only_opposite_kind (cfg : Config) (t : Nat) (s : St) :
    (onMouseover cfg t s).pending
        = s.pending.filter (fun tm => tm.id != s._hideTooltipTimeout)
          ++ [⟨s.nextId, t + cfg.mouseoverShowDelay, Action.show⟩]
    ∧ (onMouseover cfg t s)._showTooltipTimeout = s.nextId
    ∧ (onMouseover cfg t s)._hideTooltipTimeout = s._hideTooltipTimeout
    ∧ (onMouseout cfg t s).pending
        = s.pending.filter (fun tm => tm.id != s._showTooltipTimeout)
          ++ [⟨s.nextId, t + cfg.mouseoutHideDelay, Action.hide⟩]
    ∧ (onMouseout cfg t s)._hideTooltipTimeout = s.nextId
    ∧ (onMouseout cfg t s)._showTooltipTimeout = s._showTooltipTimeout
    ∧ (onTooltipMouseout cfg t s).pending
        = s.pending ++ [⟨s.nextId, t + cfg.mouseoutHideDelay, Action.hide⟩]
    ∧ (onTooltipMouseout cfg t s)._hideTooltipTimeout = s.nextId :=
  ⟨rfl, rfl, rfl, rfl, rfl, rfl, rfl, rfl⟩

/-! ## C4: does `hideTooltip` guard on the overlay handle being present? -/

/-- Claim C4 is false on the code: in the initial state the overlay handle is
absent, yet `hideTooltip` still invokes the overlay host (`popup.close`). -/
theorem C4_counterexample :
    Init._tooltip = false ∧ (hideTooltip Init).closeCount = Init.closeCount + 1 := by
  decide

/-- Claim C4 (amended): `hideTooltip` unconditionally calls `popup.close` with
the current value of `_tooltip` — exactly one host invocation per call, whether
or not the overlay handle is present — and changes nothing else of the state. -/
theorem C4_hideTooltip_always_calls_close (s : St) :
    (hideTooltip s).closeCount = s.closeCount + 1
    ∧ (hideTooltip s)._tooltip = s._tooltip
    ∧ (hideTooltip s).pending = s.pending
    ∧ (hideTooltip s).openCount = s.openCount
    ∧ (hideTooltip s).buildCount = s.buildCount
    ∧ (hideTooltip s).showCount = s.showCount :=
  ⟨rfl, rfl, rfl, rfl, rfl, rfl⟩

/-! ## C5: error propagation out of `showTooltip` -/

/-- Claim C5 is false on the code for the `popup.open` failure case: starting
with no overlay, if content building and dialog construction succeed but
`popup.open` throws, the error propagates but `_tooltip` has already been
assigned — the overlay handle does *not* remain absent, so a later trigger will
not retry construction. -/
theorem C5_counterexample :
    (showTooltipWith ⟨true, true, false⟩ Init).1 = some "OverlayHostFailure.open"
    ∧ (showTooltipWith ⟨true, true, false⟩ Init).2._tooltip = true
    ∧ (showTooltipWith ⟨true, true, false⟩ Init).2.buildCount = 1 := by
  decide

/-- Claim C5 (amended): with the overlay handle absent, a failure of
`processWidgets` (content build) or of the `TooltipDialog` construction
propagates to the caller and leaves `_tooltip` absent, so a later trigger
retries construction from scratch; a failure of `popup.open` also propagates,
but leaves the already-constructed handle present (no overlay was opened), so a
later trigger retries only the open.  When everything succeeds, no error is
returned and the handle becomes present. -/
theorem C5_failure_propagation (c : Collab) (s : St) (h : s._tooltip = false) :
    (c.buildOk = false →
        (showTooltipWith c s).1 = some "ContentBuildFailure"
        ∧ (showTooltipWith c s).2._tooltip = false
        ∧ (showTooltipWith c s).2.buildCount = s.buildCount)
    ∧ (c.buildOk = true → c.createOk = false →
        (showTooltipWith c s).1 = some "OverlayHostFailure.create"
        ∧ (showTooltipWith c s).2._tooltip = false)
    ∧ (c.buildOk = true → c.createOk = true → c.openOk = false →
        (showTooltipWith c s).1 = some "OverlayHostFailure.open"
        ∧ (showTooltipWith c s).2._tooltip = true
        ∧ (showTooltipWith c s).2.openCount = s.openCount)
    ∧ (c.buildOk = true → c.createOk = true → c.openOk = true →
        (showTooltipWith c s).1 = none
        ∧ (showTooltipWith c s).2._tooltip = true) := by
  rcases c with ⟨b, cr, o⟩
  cases b <;> cases cr <;> cases o <;> simp [showTooltipWith, h]

/-- Witness for `C5_failure_propagation` at a concrete input: content-build
failure from the initial state. -/
theorem C5_failure_propagation_witness :
    (showTooltipWith ⟨false, true, true⟩ Init).1 = some "ContentBuildFailure"
    ∧ (showTooltipWith ⟨false, true, true⟩ Init).2._tooltip = false
    ∧ (showTooltipWith ⟨false, true, true⟩ Init).2.buildCount = Init.buildCount :=
  (C5_failure_propagation ⟨false, true, true⟩ Init rfl).1 rfl

/-! ## C3: lazy-singleton construction of the tooltip dialog -/

/-- One invocation of the controller surface: a pointer handler, a direct
`showTooltip` / `hideTooltip` call (as a fired timer callback or explicit-event
trigger would do), or advancing the event-loop clock to time `t`. -/
inductive Op where
  | mouseover (t : Nat)
  | mouseout (t : Nat)
  | tooltipMouseover
  | tooltipMouseout (t : Nat)
  | showNow
  | hideNow
  | advance (t : Nat)
  deriving DecidableEq, Repr

/-- Apply one operation to the state. -/
def applyOp (cfg : Config) (s : St) : Op → St
  | .mouseover t => onMouseover cfg t s
  | .mouseout t => onMouseout cfg t s
  | .tooltipMouseover => onTooltipMouseover s
  | .tooltipMouseout t => onTooltipMouseout cfg t s
  | .showNow => showTooltip s
  | .hideNow => hideTooltip s
  | .advance t => fireDue t s

/-- Apply a sequence of operations in order. -/
def applyOps (cfg : Config) (ops : List Op) (s : St) : St :=
  ops.foldl (applyOp cfg) s

/-- Build-at-most-once invariant: `processWidgets(widgetsForTooltip, …)` has run
at most once, and exactly once iff the dialog handle is present. -/
def BuildInv (s : St) : Prop :=
  s.buildCount ≤ 1 ∧ (s._tooltip = true ↔ s.buildCount = 1)

theorem buildInv_showTooltip (s : St) (h : BuildInv s) : BuildInv (showTooltip s) := by
  rcases h with ⟨h1, h2⟩
  by_cases ht : s._tooltip <;>
    simp [showTooltip, showTooltipWith, BuildInv, ht] at h2 ⊢ <;> omega

theorem buildInv_runAction (a : Action) (s : St) (h : BuildInv s) :
    BuildInv (runAction a s) := by
  cases a
  · exact buildInv_showTooltip s h
  · exact h

theorem buildInv_foldl (l : List Timer) (s : St) (h : BuildInv s) :
    BuildInv (l.foldl (fun s tm => runAction tm.action s) s) := by
  induction l generalizing s with
  | nil => exact h
  | cons x xs ih => exact ih _ (buildInv_runAction _ _ h)

theorem buildInv_applyOp (cfg : Config) (o : Op) (s : St) (h : BuildInv s) :
    BuildInv (applyOp cfg s o) := by
  cases o with
  | showNow => exact buildInv_showTooltip s h
  | hideNow => exact h
  | advance t => exact buildInv_foldl _ _ h
  | _ => exact h

theorem buildInv_applyOps (cfg : Config) (ops : List Op) (s : St) (h : BuildInv s) :
    BuildInv (applyOps cfg ops s) := by
  induction ops generalizing s with
  | nil => exact h
  | cons o os ih => exact ih _ (buildInv_applyOp cfg o s h)

theorem tooltip_mono_runAction (a : Action) (s : St) (h : s._tooltip = true) :
    (runAction a s)._tooltip = true := by
  cases a
  · simp [runAction, showTooltip, showTooltipWith, h]
  · exact h

theorem tooltip_mono_foldl (l : List Timer) (s : St) (h : s._tooltip = true) :
    (l.foldl (fun s tm => runAction tm.action s) s)._tooltip = true := by
  induction l generalizing s with
  | nil => exact h
  | cons x xs ih => exact ih _ (tooltip_mono_runAction _ _ h)

theorem tooltip_mono_applyOp (cfg : Config) (o : Op) (s : St) (h : s._tooltip = true) :
    (applyOp cfg s o)._tooltip = true := by
  cases o with
  | showNow => exact tooltip_mono_runAction .show s h
  | hideNow => exact h
  | advance t => exact tooltip_mono_foldl _ _ h
  | _ => exact h

theorem tooltip_mono_applyOps (cfg : Config) (ops : List Op) (s : St) (h : s._tooltip = true) :
    (applyOps cfg ops s)._tooltip = true := by
  induction ops generalizing s with
  | nil => exact h
  | cons o os ih => exact ih _ (tooltip_mono_applyOp cfg o s h)

/-- Claim C3 (confirmed): over every sequence of controller operations starting
from the initial state, `processWidgets(widgetsForTooltip, …)` runs at most
once; the dialog handle is present exactly when it has run once; once present it
stays present for every continuation of the sequence (the absent→present
transition happens at most once and is never undone); and any `showTooltip`
call on a state with the handle present only increments the invocation and
`popup.open` counters — it rebuilds nothing. -/
theorem C3_lazy_singleton (cfg : Config) (ops : List Op) :
    (applyOps cfg ops Init).buildCount ≤ 1
    ∧ ((applyOps cfg ops Init)._tooltip = true ↔ (applyOps cfg ops Init).buildCount = 1)
    ∧ (∀ more : List Op, (applyOps cfg ops Init)._tooltip = true →
        (applyOps cfg (ops ++ more) Init)._tooltip = true)
    ∧ (∀ s : St, s._tooltip = true →
        showTooltip s
          = { s with showCount := s.showCount + 1, openCount := s.openCount + 1 }) := by
  have hInv : BuildInv (applyOps cfg ops Init) :=
    buildInv_applyOps cfg ops Init (by simp [BuildInv, Init])
  refine ⟨hInv.1, hInv.2, ?_, ?_⟩
  · intro more h
    rw [applyOps, List.foldl_append]
    exact tooltip_mono_applyOps cfg more _ h
  · intro s h
    simp [showTooltip, showTooltipWith, h]

/-- Witness for `C3_lazy_singleton`: a show followed by a hide keeps the handle
present, and a second `showTooltip` on the shown state only opens. -/
theorem C3_lazy_singleton_witness :
    (applyOps cfgHover ([Op.showNow] ++ [Op.hideNow]) Init)._tooltip = true
    ∧ showTooltip (applyOps cfgHover [Op.showNow] Init)
        = { applyOps cfgHover [Op.showNow] Init with
              showCount := (applyOps cfgHover [Op.showNow] Init).showCount + 1,
              openCount := (applyOps cfgHover [Op.showNow] Init).openCount + 1 } :=
  ⟨(C3_lazy_singleton cfgHover [Op.showNow]).2.2.1 [Op.hideNow] (by decide),
   (C3_lazy_singleton cfgHover [Op.showNow]).2.2.2 _ (by decide)⟩

/-! ## C6: teardown -/

/-- Modelled from the spec: the source file registers no teardown handler at all
(there is no `destroy` override in `AlfTooltip.js`), so the `detach()` operation
is not in `src/`.  Spec §4.1: "`detach()` — cancels both outstanding timers
unconditionally and releases the overlay handle if present (closing it first).
Must be safe to call multiple times."  In the spec's data model the two timer
slots are the only outstanding timers, so cancelling both empties the pending
pool. -/
def detach (s : St) : St :=
  { s with pending := [],
           closeCount := if s._tooltip then s.closeCount + 1 else s.closeCount,
           _tooltip := false }

/-- Claim C6 (confirmed against the spec model): `detach` can run in any state;
it leaves no pending timer, closes the overlay exactly when the handle was
present and releases the handle; a second `detach` changes nothing (safe to
call multiple times); and advancing the clock arbitrarily after `detach` is a
no-op — no dangling timer fires after teardown. -/
theorem C6_detach_teardown (s : St) (τ : Nat) :
    (detach s).pending = []
    ∧ (detach s)._tooltip = false
    ∧ (detach s).closeCount = (if s._tooltip then s.closeCount + 1 else s.closeCount)
    ∧ detach (detach s) = detach s
    ∧ fireDue τ (detach s) = detach s := by
  refine ⟨rfl, rfl, rfl, ?_, ?_⟩
  · simp [detach]
  · exact fireDue_no_due τ (detach s) (by simp [detach])

/-! ## C7: missing `widgetsForTooltip` configuration -/

theorem fireDue_empty (t : Nat) (s : St) (hp : s.pending = []) : fireDue t s = s :=
  fireDue_no_due t s (by simp [hp])

theorem runEvents_no_listeners (cfg : Config) (tr : List (Nat × Ev)) :
    runEvents cfg [] tr Init = Init := by
  induction tr with
  | nil => rfl
  | cons p rest ih =>
    rcases p with ⟨t, e⟩
    have h1 : fireDue t Init = Init := fireDue_empty t Init rfl
    have h2 : happen cfg [] t e Init = Init := by
      cases e <;> simp [happen, Init]
    rw [runEvents, h1, h2]
    exact ih

/-- A configuration with no tooltip content model. -/
def cfgNoTooltip : Config :=
  { widgetsForTooltip := none, widgets := some ["alfresco/logo/Logo"] }

/-- Claim C7 (confirmed): with no `widgetsForTooltip`, `postCreate` logs the
configuration warning, completes (it still processes the primary `widgets`
model whenever one is configured), and registers no trigger listeners — so
under every stimulus trace and at every observation time the tooltip is never
built or shown. -/
theorem C7_missing_tooltip_model (cfg : Config) (h : cfg.widgetsForTooltip = none) :
    (postCreate cfg).warned = true
    ∧ (postCreate cfg).listeners = []
    ∧ (postCreate cfg).processedWidgets = cfg.widgets.isSome
    ∧ ∀ (tr : List (Nat × Ev)) (τ : Nat),
        (runUntil cfg (postCreate cfg).listeners tr τ Init).showCount = 0
        ∧ (runUntil cfg (postCreate cfg).listeners tr τ Init).openCount = 0 := by
  have hpc : postCreate cfg
      = { listeners := [], warned := true, processedWidgets := cfg.widgets.isSome } := by
    simp [postCreate, h]
  refine ⟨by rw [hpc], by rw [hpc], by rw [hpc], ?_⟩
  intro tr τ
  have hrun : runUntil cfg (postCreate cfg).listeners tr τ Init = Init := by
    rw [hpc]
    show fireDue τ (runEvents cfg [] _ Init) = Init
    rw [runEvents_no_listeners]
    exact fireDue_empty τ Init rfl
  rw [hrun]
  exact ⟨rfl, rfl⟩

/-- Witness for `C7_missing_tooltip_model` at a concrete configuration and
trace. -/
theorem C7_missing_tooltip_model_witness :
    (postCreate cfgNoTooltip).warned = true
    ∧ (postCreate cfgNoTooltip).listeners = []
    ∧ (postCreate cfgNoTooltip).processedWidgets = cfgNoTooltip.widgets.isSome
    ∧ ((runUntil cfgNoTooltip (postCreate cfgNoTooltip).listeners
          [(0, Ev.dom "mouseover")] 500 Init).showCount = 0
       ∧ (runUntil cfgNoTooltip (postCreate cfgNoTooltip).listeners
          [(0, Ev.dom "mouseover")] 500 Init).openCount = 0) :=
  ⟨(C7_missing_tooltip_model cfgNoTooltip rfl).1,
   (C7_missing_tooltip_model cfgNoTooltip rfl).2.1,
   (C7_missing_tooltip_model cfgNoTooltip rfl).2.2.1,
   (C7_missing_tooltip_model cfgNoTooltip rfl).2.2.2 [(0, Ev.dom "mouseover")] 500⟩

/-! ## C8: explicit (non-hover) trigger events -/

/-- Claim C8 (confirmed): when `triggeringEvent` is any name other than
`"mouseover"`, `postCreate` registers exactly one listener — on that event
name, invoking `showTooltip` directly — and a single such event shows the
overlay at the very instant of the event: observed at the event's own time, the
tooltip has been built and opened once, and no timer was ever scheduled. -/
theorem C8_explicit_trigger_immediate (cfg : Config) (t : Nat)
    (h1 : cfg.widgetsForTooltip.isSome = true) (h2 : cfg.triggeringEvent ≠ "mouseover") :
    (postCreate cfg).listeners = [(cfg.triggeringEvent, Handler.hShowTooltip)]
    ∧ runUntil cfg (postCreate cfg).listeners [(t, Ev.dom cfg.triggeringEvent)] t Init
        = { Init with showCount := 1, buildCount := 1, _tooltip := true, openCount := 1 } := by
  have hpc : (postCreate cfg).listeners = [(cfg.triggeringEvent, Handler.hShowTooltip)] := by
    simp [postCreate, h1, h2]
  refine ⟨hpc, ?_⟩
  rw [runUntil, hpc]
  have hf : [(t, Ev.dom cfg.triggeringEvent)].filter (fun p => decide (p.1 ≤ t))
      = [(t, Ev.dom cfg.triggeringEvent)] := by simp
  rw [hf, runEvents, fireDue_empty t Init rfl, runEvents]
  have hh : happen cfg [(cfg.triggeringEvent, Handler.hShowTooltip)] t
      (Ev.dom cfg.triggeringEvent) Init = showTooltip Init := by
    simp [happen, runHandler]
  rw [hh]
  have hs : showTooltip Init
      = { Init with showCount := 1, buildCount := 1, _tooltip := true, openCount := 1 } := by
    decide
  rw [hs]
  exact fireDue_empty t _ rfl

/-- Witness for `C8_explicit_trigger_immediate`: the click configuration at
t = 7. -/
theorem C8_explicit_trigger_immediate_witness :
    (postCreate cfgClick).listeners = [(cfgClick.triggeringEvent, Handler.hShowTooltip)]
    ∧ runUntil cfgClick (postCreate cfgClick).listeners
        [(7, Ev.dom cfgClick.triggeringEvent)] 7 Init
        = { Init with showCount := 1, buildCount := 1, _tooltip := true, openCount := 1 } :=
  C8_explicit_trigger_immediate cfgClick 7 (by decide) (by decide)

/-! ## C10: non-hover triggers never touch the timers -/

theorem showTooltip_preserves_timers (s : St) :
    (showTooltip s).pending = s.pending
    ∧ (showTooltip s)._showTooltipTimeout = s._showTooltipTimeout
    ∧ (showTooltip s)._hideTooltipTimeout = s._hideTooltipTimeout
    ∧ (showTooltip s).closeCount = s.closeCount := by
  by_cases h : s._tooltip <;> simp [showTooltip, showTooltipWith, h]

theorem happen_explicit_cases (cfg : Config) (e name : String) (t : Nat) (s : St) :
    happen cfg [(e, Handler.hShowTooltip)] t (Ev.dom name) s = showTooltip s
    ∨ happen cfg [(e, Handler.hShowTooltip)] t (Ev.dom name) s = s := by
  by_cases h : (e == name) = true
  · exact Or.inl (by simp [happen, List.filter_singleton, h, runHandler])
  · exact Or.inr (by simp [happen, List.filter_singleton, h])

theorem run_no_overlayLeave (cfg : Config) (e : String) :
    ∀ (tr : List (Nat × Ev)) (s : St), s.pending = [] → s.closeCount = 0 →
      (∀ p ∈ tr, p.2 ≠ Ev.overlayLeave) →
      (runEvents cfg [(e, Handler.hShowTooltip)] tr s).pending = []
      ∧ (runEvents cfg [(e, Handler.hShowTooltip)] tr s).closeCount = 0 := by
  intro tr
  induction tr with
  | nil =>
    intro s h1 h2 _
    exact ⟨h1, h2⟩
  | cons p rest ih =>
    intro s h1 h2 hno
    rcases p with ⟨t, ev⟩
    rw [runEvents, fireDue_empty t s h1]
    have hstep : (happen cfg [(e, Handler.hShowTooltip)] t ev s).pending = []
        ∧ (happen cfg [(e, Handler.hShowTooltip)] t ev s).closeCount = 0 := by
      cases ev with
      | dom name =>
        rcases happen_explicit_cases cfg e name t s with h | h
        · rw [h]
          exact ⟨(showTooltip_preserves_timers s).1.trans h1,
                 (showTooltip_preserves_timers s).2.2.2.trans h2⟩
        · rw [h]
          exact ⟨h1, h2⟩
      | overlayEnter =>
        by_cases ht : s._tooltip <;>
          simp [happen, ht, onTooltipMouseover, clearTimeout, h1, h2]
      | overlayLeave => exact absurd rfl (hno (t, .overlayLeave) (by simp))
    exact ih _ hstep.1 hstep.2 (fun q hq => hno q (by simp [hq]))

/-- Claim C10 (confirmed): with a non-hover `triggeringEvent`, no event on the
trigger element ever schedules or cancels a timer — the sole registered
observer calls `showTooltip` directly, which leaves the pending pool and both
stored timeout handles untouched.  Consequently, in any trace that contains no
pointer-leave on the overlay itself, no timer (in particular no hide timer) is
ever pending and `popup.close` never runs: the overlay stays open until the
pointer enters and then leaves the overlay. -/
theorem C10_explicit_trigger_timer_free (cfg : Config)
    (h1 : cfg.widgetsForTooltip.isSome = true) (h2 : cfg.triggeringEvent ≠ "mouseover") :
    (∀ (name : String) (t : Nat) (s : St),
        (happen cfg (postCreate cfg).listeners t (Ev.dom name) s).pending = s.pending
        ∧ (happen cfg (postCreate cfg).listeners t (Ev.dom name) s)._showTooltipTimeout
            = s._showTooltipTimeout
        ∧ (happen cfg (postCreate cfg).listeners t (Ev.dom name) s)._hideTooltipTimeout
            = s._hideTooltipTimeout)
    ∧ (∀ (tr : List (Nat × Ev)) (τ : Nat), (∀ p ∈ tr, p.2 ≠ Ev.overlayLeave) →
        (runUntil cfg (postCreate cfg).listeners tr τ Init).closeCount = 0
        ∧ (runUntil cfg (postCreate cfg).listeners tr τ Init).pending = []) := by
  have hpc : (postCreate cfg).listeners = [(cfg.triggeringEvent, Handler.hShowTooltip)] := by
    simp [postCreate, h1, h2]
  constructor
  · intro name t s
    rw [hpc]
    rcases happen_explicit_cases cfg cfg.triggeringEvent name t s with h | h
    · rw [h]
      exact ⟨(showTooltip_preserves_timers s).1, (showTooltip_preserves_timers s).2.1,
             (showTooltip_preserves_timers s).2.2.1⟩
    · rw [h]
      exact ⟨rfl, rfl, rfl⟩
  · intro tr τ hno
    rw [runUntil, hpc]
    have hfil : ∀ p ∈ tr.filter (fun p => decide (p.1 ≤ τ)), p.2 ≠ Ev.overlayLeave :=
      fun p hp => hno p (List.mem_of_mem_filter hp)
    have hrun := run_no_overlayLeave cfg cfg.triggeringEvent
        (tr.filter (fun p => decide (p.1 ≤ τ))) Init rfl rfl hfil
    rw [fireDue_empty τ _ hrun.1]
    exact ⟨hrun.2, hrun.1⟩

/-- Witness for `C10_explicit_trigger_timer_free`: the click configuration, a
click followed by the pointer entering the overlay, observed at t = 9. -/
theorem C10_explicit_trigger_timer_free_witness :
    ((happen cfgClick (postCreate cfgClick).listeners 3 (Ev.dom "click") Init).pending
        = Init.pending
     ∧ (happen cfgClick (postCreate cfgClick).listeners 3 (Ev.dom "click") Init)._showTooltipTimeout
        = Init._showTooltipTimeout
     ∧ (happen cfgClick (postCreate cfgClick).listeners 3 (Ev.dom "click") Init)._hideTooltipTimeout
        = Init._hideTooltipTimeout)
    ∧ ((runUntil cfgClick (postCreate cfgClick).listeners
          [(0, Ev.dom "click"), (2, Ev.overlayEnter)] 9 Init).closeCount = 0
       ∧ (runUntil cfgClick (postCreate cfgClick).listeners
          [(0, Ev.dom "click"), (2, Ev.overlayEnter)] 9 Init).pending = []) :=
  ⟨(C10_explicit_trigger_timer_free cfgClick (by decide) (by decide)).1 "click" 3 Init,
   (C10_explicit_trigger_timer_free cfgClick (by decide) (by decide)).2
     [(0, Ev.dom "click"), (2, Ev.overlayEnter)] 9 (by decide)⟩

/-! ## C2: rapid pass-through never shows the overlay -/

/-- The delay governing the timer scheduled by a hover event of the given kind. -/
def gapBound (cfg : Config) : EvK → Nat
  | .enter => cfg.mouseoverShowDelay
  | .leave => cfg.mouseoutHideDelay

/-- Is the event `(t, k)` admissible after the previous event `last`?  It must
be of the other kind (pointer events on one element alternate), strictly later,
and arrive before the timer scheduled by the previous event is due. -/
def stepOK (cfg : Config) : Option (EvK × Nat) → Nat → EvK → Bool
  | none, _, _ => true
  | some (k₀, t₀), t, k =>
      decide (k ≠ k₀) && decide (t₀ < t) && decide (t < t₀ + gapBound cfg k₀)

/-- A rapid pass-through may not end while an enter's show window is open. -/
def endsOK : Option (EvK × Nat) → Bool
  | some (.enter, _) => false
  | _ => true

/-- A rapid pass-through trace after the event `last`: alternating enter/leave
events, strictly increasing times, each arriving less than the previous event's
delay after it, and ending with a leave (or empty). -/
def rapidB (cfg : Config) (last : Option (EvK × Nat)) : List (Nat × EvK) → Bool
  | [] => endsOK last
  | (t, k) :: rest => stepOK cfg last t k && rapidB cfg (some (k, t)) rest

/-- State invariant of the hover debounce machine between alternating events:
`showTooltip` has never run, and the pending pool holds exactly the single
timer scheduled by the most recent event (none before the first event), whose
id is the stored timeout handle of its kind. -/
def HoverInv (cfg : Config) : Option (EvK × Nat) → St → Prop
  | none, s => s.showCount = 0 ∧ s.pending = []
  | some (.enter, t), s =>
      s.showCount = 0
      ∧ s.pending = [⟨s._showTooltipTimeout, t + cfg.mouseoverShowDelay, Action.show⟩]
  | some (.leave, t), s =>
      s.showCount = 0
      ∧ s.pending = [⟨s._hideTooltipTimeout, t + cfg.mouseoutHideDelay, Action.hide⟩]

theorem hoverInv_mouseover_none (cfg : Config) (t : Nat) (s : St)
    (h : HoverInv cfg none s) :
    HoverInv cfg (some (.enter, t)) (onMouseover cfg t s) := by
  rcases h with ⟨hs, hp⟩
  exact ⟨hs, by simp [onMouseover, clearTimeout, setTimeout, hp]⟩

theorem hoverInv_mouseover_leave (cfg : Config) (t t₀ : Nat) (s : St)
    (h : HoverInv cfg (some (.leave, t₀)) s) :
    HoverInv cfg (some (.enter, t)) (onMouseover cfg t s) := by
  rcases h with ⟨hs, hp⟩
  exact ⟨hs, by simp [onMouseover, clearTimeout, setTimeout, hp]⟩

theorem hoverInv_mouseout_none (cfg : Config) (t : Nat) (s : St)
    (h : HoverInv cfg none s) :
    HoverInv cfg (some (.leave, t)) (onMouseout cfg t s) := by
  rcases h with ⟨hs, hp⟩
  exact ⟨hs, by simp [onMouseout, clearTimeout, setTimeout, hp]⟩

theorem hoverInv_mouseout_enter (cfg : Config) (t t₀ : Nat) (s : St)
    (h : HoverInv cfg (some (.enter, t₀)) s) :
    HoverInv cfg (some (.leave, t)) (onMouseout cfg t s) := by
  rcases h with ⟨hs, hp⟩
  exact ⟨hs, by simp [onMouseout, clearTimeout, setTimeout, hp]⟩

theorem happen_hover_over (cfg : Config) (t : Nat) (s : St) :
    happen cfg [("mouseover", Handler.hMouseover), ("mouseout", Handler.hMouseout)] t
      (Ev.dom "mouseover") s = onMouseover cfg t s := by
  have hf : ([("mouseover", Handler.hMouseover), ("mouseout", Handler.hMouseout)].filter
      (fun p => p.1 == "mouseover")) = [("mouseover", Handler.hMouseover)] := by decide
  simp only [happen, hf]
  rfl

theorem happen_hover_out (cfg : Config) (t : Nat) (s : St) :
    happen cfg [("mouseover", Handler.hMouseover), ("mouseout", Handler.hMouseout)] t
      (Ev.dom "mouseout") s = onMouseout cfg t s := by
  have hf : ([("mouseover", Handler.hMouseover), ("mouseout", Handler.hMouseout)].filter
      (fun p => p.1 == "mouseout")) = [("mouseout", Handler.hMouseout)] := by decide
  simp only [happen, hf]
  rfl

theorem rapidB_times_gt (cfg : Config) :
    ∀ (tr : List (Nat × EvK)) (k₀ : EvK) (t₀ : Nat),
      rapidB cfg (some (k₀, t₀)) tr = true → ∀ p ∈ tr, t₀ < p.1 := by
  intro tr
  induction tr with
  | nil =>
    intro k₀ t₀ _ p hp
    simp at hp
  | cons q rest ih =>
    intro k₀ t₀ hr p hp
    rcases q with ⟨t, k⟩
    simp only [rapidB, Bool.and_eq_true] at hr
    obtain ⟨hstep, hrest⟩ := hr
    simp only [stepOK, Bool.and_eq_true, decide_eq_true_eq] at hstep
    obtain ⟨⟨_, hlt⟩, _⟩ := hstep
    rcases List.mem_cons.mp hp with h | h
    · rw [h]
      exact hlt
    · exact Nat.lt_trans hlt (ih k t hrest p h)

theorem rapid_no_show_aux (cfg : Config) :
    ∀ (tr : List (Nat × EvK)) (last : Option (EvK × Nat)) (s : St),
      HoverInv cfg last s → rapidB cfg last tr = true → ∀ τ : Nat,
      (fireDue τ (runEvents cfg
          [("mouseover", Handler.hMouseover), ("mouseout", Handler.hMouseout)]
          ((toEvs tr).filter (fun p => decide (p.1 ≤ τ))) s)).showCount = 0 := by
  intro tr
  induction tr with
  | nil =>
    intro last s hInv hr τ
    simp only [toEvs, List.map_nil, List.filter_nil, runEvents]
    rcases last with _ | ⟨k₀, t₀⟩
    · rw [fireDue_empty τ s hInv.2]
      exact hInv.1
    · cases k₀ with
      | enter => simp [rapidB, endsOK] at hr
      | leave =>
        rw [fireDue_showCount_of_hides τ s (by rw [hInv.2]; intro tm hm; simp at hm; simp [hm])]
        exact hInv.1
  | cons q rest ih =>
    intro last s hInv hr τ
    rcases q with ⟨t, k⟩
    simp only [rapidB, Bool.and_eq_true] at hr
    obtain ⟨hstep, hrest⟩ := hr
    have hmap : toEvs ((t, k) :: rest) = (t, Ev.dom (evName k)) :: toEvs rest := rfl
    rw [hmap, List.filter_cons]
    by_cases hτ : t ≤ τ
    · -- the head event occurs no later than the observation time
      rw [if_pos (by simpa using hτ)]
      rw [runEvents]
      -- no timer fires before the head event
      have hfd : fireDue t s = s := by
        rcases last with _ | ⟨k₀, t₀⟩
        · exact fireDue_empty t s hInv.2
        · simp only [stepOK, Bool.and_eq_true, decide_eq_true_eq] at hstep
          obtain ⟨⟨_, _⟩, hgap⟩ := hstep
          cases k₀ with
          | enter =>
            refine fireDue_no_due t s ?_
            rw [hInv.2]
            intro tm hm
            simp at hm
            rw [hm]
            show ¬ (t₀ + cfg.mouseoverShowDelay ≤ t)
            simp only [gapBound] at hgap
            omega
          | leave =>
            refine fireDue_no_due t s ?_
            rw [hInv.2]
            intro tm hm
            simp at hm
            rw [hm]
            show ¬ (t₀ + cfg.mouseoutHideDelay ≤ t)
            simp only [gapBound] at hgap
            omega
      rw [hfd]
      -- dispatch the head event and re-establish the invariant
      cases k with
      | enter =>
        rw [show evName EvK.enter = "mouseover" from rfl, happen_hover_over]
        have hInv' : HoverInv cfg (some (.enter, t)) (onMouseover cfg t s) := by
          rcases last with _ | ⟨k₀, t₀⟩
          · exact hoverInv_mouseover_none cfg t s hInv
          · cases k₀ with
            | enter =>
              simp only [stepOK, Bool.and_eq_true, decide_eq_true_eq] at hstep
              exact absurd rfl hstep.1.1
            | leave => exact hoverInv_mouseover_leave cfg t t₀ s hInv
        exact ih (some (.enter, t)) _ hInv' hrest τ
      | leave =>
        rw [show evName EvK.leave = "mouseout" from rfl, happen_hover_out]
        have hInv' : HoverInv cfg (some (.leave, t)) (onMouseout cfg t s) := by
          rcases last with _ | ⟨k₀, t₀⟩
          · exact hoverInv_mouseout_none cfg t s hInv
          · cases k₀ with
            | enter => exact hoverInv_mouseout_enter cfg t t₀ s hInv
            | leave =>
              simp only [stepOK, Bool.and_eq_true, decide_eq_true_eq] at hstep
              exact absurd rfl hstep.1.1
        exact ih (some (.leave, t)) _ hInv' hrest τ
    · -- the whole remaining trace happens after the observation time
      rw [if_neg (by simpa using hτ)]
      have hnil : (toEvs rest).filter (fun p => decide (p.1 ≤ τ)) = [] := by
        rw [List.filter_eq_nil_iff]
        intro p hp
        obtain ⟨q, hq, hpq⟩ := List.mem_map.mp hp
        have h1 : t < q.1 := rapidB_times_gt cfg rest k t hrest q hq
        have h2 : p.1 = q.1 := by rw [← hpq]
        simp only [decide_eq_true_eq]
        omega
      rw [hnil, runEvents]
      rcases last with _ | ⟨k₀, t₀⟩
      · rw [fireDue_empty τ s hInv.2]
        exact hInv.1
      · cases k₀ with
        | enter =>
          simp only [stepOK, Bool.and_eq_true, decide_eq_true_eq] at hstep
          obtain ⟨⟨_, _⟩, hgap⟩ := hstep
          have hfd : fireDue τ s = s := by
            refine fireDue_no_due τ s ?_
            rw [hInv.2]
            intro tm hm
            simp at hm
            rw [hm]
            show ¬ (t₀ + cfg.mouseoverShowDelay ≤ τ)
            simp only [gapBound] at hgap
            omega
          rw [hfd]
          exact hInv.1
        | leave =>
          rw [fireDue_showCount_of_hides τ s
              (by rw [hInv.2]; intro tm hm; simp at hm; simp [hm])]
          exact hInv.1

/-- Claim C2 is false as stated: the trace enter@0, enter@200, leave@400 (the
pointer crosses into a child of the trigger node, re-firing `mouseover` without
an intervening `mouseout`) has every consecutive gap below the corresponding
250ms delay, yet `showTooltip` runs: the show timer scheduled at t=0 for t=250
is never cancelled — the enter at t=200 overwrites the stored handle without
clearing it — so it fires at t=250, before the trace is even over. -/
theorem C2_counterexample :
    (200 < 0 + cfgHover.mouseoverShowDelay ∧ 400 < 200 + cfgHover.mouseoverShowDelay)
    ∧ (runUntil cfgHover (postCreate cfgHover).listeners
        (toEvs [(0, .enter), (200, .enter), (400, .leave)]) 250 Init).showCount = 1
    ∧ (runUntil cfgHover (postCreate cfgHover).listeners
        (toEvs [(0, .enter), (200, .enter), (400, .leave)]) 400 Init).showCount = 1 := by
  decide

/-- Claim C2 (amended): for every *alternating* sequence of enter/leave events
on the trigger (no two consecutive events of the same kind — the shape physical
pointer traversal produces on a leaf node) with strictly increasing times, each
event arriving less than `mouseoverShowDelay` (after an enter) resp.
`mouseoutHideDelay` (after a leave) after its predecessor, and ending with a
leave, the overlay is never shown: at every observation time `τ`, `showTooltip`
has never run. -/
theorem C2_rapid_passthrough_never_shows (cfg : Config)
    (h1 : cfg.widgetsForTooltip.isSome = true) (h2 : cfg.triggeringEvent = "mouseover")
    (tr : List (Nat × EvK)) (hr : rapidB cfg none tr = true) (τ : Nat) :
    (runUntil cfg (postCreate cfg).listeners (toEvs tr) τ Init).showCount = 0 := by
  have hpc : (postCreate cfg).listeners
      = [("mouseover", Handler.hMouseover), ("mouseout", Handler.hMouseout)] := by
    simp [postCreate, h1, h2]
  rw [runUntil, hpc]
  exact rapid_no_show_aux cfg tr none Init ⟨rfl, rfl⟩ hr τ

/-- Witness for `C2_rapid_passthrough_never_shows`: a fast enter/leave pair,
observed long after both delays have expired. -/
theorem C2_rapid_passthrough_never_shows_witness :
    (runUntil cfgHover (postCreate cfgHover).listeners
        (toEvs [(0, .enter), (100, .leave)]) 600 Init).showCount = 0 :=
  C2_rapid_passthrough_never_shows cfgHover (by decide) (by decide)
    [(0, .enter), (100, .leave)] (by decide) 600

/-! ## C9: the concrete enter@0 / leave@100 / enter@150 scenario -/

/-- The stimulus trace of the concrete scenario. -/
def trace9 : List (Nat × Ev) := toEvs [(0, .enter), (100, .leave), (150, .enter)]

/-- Claim C9 (confirmed): with both delays at 250, for the trace enter@0,
leave@100, enter@150 and no further events, the show timer scheduled by the
first enter never fires (the leave at t=100 cancels it), nothing is shown at
any observation time before t=400, and at t=400 the overlay is shown exactly
once (opened once, never closed — the hide scheduled at t=100 was cancelled by
the re-enter). -/
theorem C9_concrete_scenario (τ : Nat) (hτ : τ < 400) :
    (runUntil cfgHover (postCreate cfgHover).listeners trace9 τ Init).showCount = 0
    ∧ (runUntil cfgHover (postCreate cfgHover).listeners trace9 400 Init).showCount = 1
    ∧ (runUntil cfgHover (postCreate cfgHover).listeners trace9 400 Init).openCount = 1
    ∧ (runUntil cfgHover (postCreate cfgHover).listeners trace9 400 Init).closeCount = 0 := by
  refine ⟨?_, by decide, by decide, by decide⟩
  have hpc : (postCreate cfgHover).listeners
      = [("mouseover", Handler.hMouseover), ("mouseout", Handler.hMouseout)] := by decide
  have htr : trace9
      = [(0, Ev.dom "mouseover"), (100, Ev.dom "mouseout"), (150, Ev.dom "mouseover")] := rfl
  rw [runUntil, hpc, htr]
  rcases Nat.lt_or_ge τ 100 with h100 | h100
  · -- only the first enter has happened: one show timer, due at 250 > τ
    have hf : List.filter (fun p => decide (p.1 ≤ τ))
        [(0, Ev.dom "mouseover"), (100, Ev.dom "mouseout"), (150, Ev.dom "mouseover")]
        = [(0, Ev.dom "mouseover")] := by
      simp [List.filter_cons, Nat.zero_le τ, show ¬ (100 ≤ τ) from by omega,
        show ¬ (150 ≤ τ) from by omega]
    rw [hf]
    have hrun : runEvents cfgHover
        [("mouseover", Handler.hMouseover), ("mouseout", Handler.hMouseout)]
        [(0, Ev.dom "mouseover")] Init
        = ({ _tooltip := false, _showTooltipTimeout := 1, _hideTooltipTimeout := 0,
             pending := [⟨1, 250, Action.show⟩], nextId := 2,
             buildCount := 0, showCount := 0, openCount := 0, closeCount := 0 } : St) := by
      decide
    rw [hrun]
    have hnd := fireDue_no_due τ
        ({ _tooltip := false, _showTooltipTimeout := 1, _hideTooltipTimeout := 0,
           pending := [⟨1, 250, Action.show⟩], nextId := 2,
           buildCount := 0, showCount := 0, openCount := 0, closeCount := 0 } : St)
        (by intro tm hm; simp at hm; rw [hm]; show ¬ (250 ≤ τ); omega)
    rw [hnd]
  · rcases Nat.lt_or_ge τ 150 with h150 | h150
    · -- enter@0 then leave@100: the show timer is cancelled, one hide timer at 350 > τ
      have hf : List.filter (fun p => decide (p.1 ≤ τ))
          [(0, Ev.dom "mouseover"), (100, Ev.dom "mouseout"), (150, Ev.dom "mouseover")]
          = [(0, Ev.dom "mouseover"), (100, Ev.dom "mouseout")] := by
        simp [List.filter_cons, Nat.zero_le τ, h100, show ¬ (150 ≤ τ) from by omega]
      rw [hf]
      have hrun : runEvents cfgHover
          [("mouseover", Handler.hMouseover), ("mouseout", Handler.hMouseout)]
          [(0, Ev.dom "mouseover"), (100, Ev.dom "mouseout")] Init
          = ({ _tooltip := false, _showTooltipTimeout := 1, _hideTooltipTimeout := 2,
               pending := [⟨2, 350, Action.hide⟩], nextId := 3,
               buildCount := 0, showCount := 0, openCount := 0, closeCount := 0 } : St) := by
        decide
      rw [hrun]
      have hnd := fireDue_no_due τ
          ({ _tooltip := false, _showTooltipTimeout := 1, _hideTooltipTimeout := 2,
             pending := [⟨2, 350, Action.hide⟩], nextId := 3,
             buildCount := 0, showCount := 0, openCount := 0, closeCount := 0 } : St)
          (by intro tm hm; simp at hm; rw [hm]; show ¬ (350 ≤ τ); omega)
      rw [hnd]
    · -- all three events: the re-enter cancelled the hide; one show timer at 400 > τ
      have hf : List.filter (fun p => decide (p.1 ≤ τ))
          [(0, Ev.dom "mouseover"), (100, Ev.dom "mouseout"), (150, Ev.dom "mouseover")]
          = [(0, Ev.dom "mouseover"), (100, Ev.dom "mouseout"), (150, Ev.dom "mouseover")] := by
        simp [List.filter_cons, Nat.zero_le τ, h100, h150]
      rw [hf]
      have hrun : runEvents cfgHover
          [("mouseover", Handler.hMouseover), ("mouseout", Handler.hMouseout)]
          [(0, Ev.dom "mouseover"), (100, Ev.dom "mouseout"), (150, Ev.dom "mouseover")] Init
          = ({ _tooltip := false, _showTooltipTimeout := 3, _hideTooltipTimeout := 2,
               pending := [⟨3, 400, Action.show⟩], nextId := 4,
               buildCount := 0, showCount := 0, openCount := 0, closeCount := 0 } : St) := by
        decide
      rw [hrun]
      have hnd := fireDue_no_due τ
          ({ _tooltip := false, _showTooltipTimeout := 3, _hideTooltipTimeout := 2,
             pending := [⟨3, 400, Action.show⟩], nextId := 4,
             buildCount := 0, showCount := 0, openCount := 0, closeCount := 0 } : St)
          (by intro tm hm; simp at hm; rw [hm]; show ¬ (400 ≤ τ); omega)
      rw [hnd]

/-- Witness for `C9_concrete_scenario` at the last instant before the show
fires. -/
theorem C9_concrete_scenario_witness :
    (runUntil cfgHover (postCreate cfgHover).listeners trace9 399 Init).showCount = 0
    ∧ (runUntil cfgHover (postCreate cfgHover).listeners trace9 400 Init).showCount = 1
    ∧ (runUntil cfgHover (postCreate cfgHover).listeners trace9 400 Init).openCount = 1
    ∧ (runUntil cfgHover (postCreate cfgHover).listeners trace9 400 Init).closeCount = 0 :=
  C9_concrete_scenario 399 (by decide)

end AlfTooltip
